import Mathlib

/-!
Verification of the natural-language specification of the `saudade2210/notebooks`
repository against its two source notebooks:

* `src/unnamed/part_000` — "Quantizing a model during fine-tuning with Intel
  Neural Compressor (INC) for text classification tasks" (the quantization
  notebook), and
* `src/examples/patch_tst.ipynb` — "Patch Time Series Transformer in
  HuggingFace - Getting Started" (the PatchTST notebook).

The notebooks are Python programs (sequences of code cells).  We give a shallow
embedding of the fragment of Python they use: a syntax of expressions and
statements, a faithful transcription of every code cell of both notebooks into
that syntax, and executable census / extraction functions over the syntax
(control-flow census, the ordered list of calls issued, keyword arguments,
imports, the save operations performed with their resolved directory strings).
Pure in-repo functions (`get_model_size`, `compute_metrics`,
`preprocess_function`) and the Electricity split arithmetic are additionally
embedded denotationally.

Modelling conventions (stated once here):
* machine integers are `Int`; Python decimal literals such as `0.7` or `2e-5`
  are recorded exactly as decimal fractions (`Lit.dec m e` denotes `m / e`);
  file sizes are `Int`, fractional results are `ℚ` and Python's `round(x, 2)`
  (round-half-to-even) is modelled exactly on `ℚ`;
* library objects are opaque: a call into an external library is recorded as an
  event carrying the rendered (dotted) callee name and its arguments;
* comment-only cells (the commented-out `pip install` cell) contain no
  statements and are omitted;
* Jupyter executes the code cells top to bottom, so each notebook is embedded
  as the concatenation of its cells' statements, in order.
-/

set_option maxRecDepth 100000

namespace Notebooks

/-- Python literals appearing in the notebooks.  `dec m e` is the decimal
fraction `m / e` (so `0.7` is `dec 7 10` and `2e-5` is `dec 2 100000`). -/
inductive Lit where
  | int : Int → Lit
  | dec : Int → Nat → Lit
  | str : String → Lit
  | bool : Bool → Lit
  | none : Lit

/-- Binary operators used by the notebooks.  `isOp` is Python's `is`
(only ever used as `x is None` in this code). -/
inductive Op where
  | add | sub | mul | div | eq | ne | isOp

/-- Expressions of the Python fragment used by the two notebooks.  Argument
lists, tuple/list displays, dictionary displays and f-string parts are
represented by spine constructors of the same inductive (`nilE`, `consE`,
`posA`, `kwA`, `kvP`), so that every function over the syntax is plain
structural recursion on one type. -/
inductive Expr where
  | lit : Lit → Expr
  | name : String → Expr
  -- attribute access e.f
  | attr : Expr → String → Expr
  -- a call f(args): callee expression and argument spine (posA/kwA/nilE)
  | call : Expr → Expr → Expr
  | binop : Op → Expr → Expr → Expr
  -- Python conditional expression, condition first: t if c else e
  | condE : Expr → Expr → Expr → Expr
  -- tuple display; the argument is an element spine (consE/nilE)
  | tup : Expr → Expr
  -- list display; the argument is an element spine
  | listE : Expr → Expr
  -- dictionary display; the argument is an entry spine (kvP/nilE)
  | dictE : Expr → Expr
  -- subscript e[i]
  | item : Expr → Expr → Expr
  -- slice [a:b] (Option.none for an omitted bound)
  | sliceE : Option Int → Option Int → Expr
  -- argument unpacking *e
  | star : Expr → Expr
  -- f-string; the argument is the spine of its parts
  | fstr : Expr → Expr
  -- empty spine
  | nilE : Expr
  -- element spine cons
  | consE : Expr → Expr → Expr
  -- positional-argument spine cons
  | posA : Expr → Expr → Expr
  -- keyword-argument spine cons
  | kwA : String → Expr → Expr → Expr
  -- dictionary-entry spine cons (key, value, rest)
  | kvP : Expr → Expr → Expr → Expr

/-- Statements of the Python fragment used by the two notebooks.  Bodies of
compound statements are blocks built from `nilS` and `consS`. -/
inductive Stmt where
  -- import m / from m import …: we record the imported module path
  | imp : String → Stmt
  | assign : String → Expr → Stmt
  -- tuple unpacking a, b = e
  | unpack : List String → Expr → Stmt
  -- attribute assignment e.f = v (param.requires_grad = False)
  | attrSet : Expr → String → Expr → Stmt
  -- bare expression statement (a call for its effect)
  | exprS : Expr → Stmt
  | ifS : Expr → Stmt → Stmt → Stmt
  | forS : String → Expr → Stmt → Stmt
  | funDef : String → List String → Stmt → Stmt
  | ret : Expr → Stmt
  -- try/except: present in the syntax so that its absence from the
  -- notebooks is a fact about the programs, not about the embedding
  | tryS : Stmt → Stmt → Stmt
  -- empty block
  | nilS : Stmt
  -- block cons
  | consS : Stmt → Stmt → Stmt

/-! ### Transcription helpers -/

/-- variable reference -/
def V (s : String) : Expr := .name s
/-- string literal -/
def S (s : String) : Expr := .lit (.str s)
/-- integer literal -/
def I (n : Int) : Expr := .lit (.int n)
/-- boolean literal -/
def B (b : Bool) : Expr := .lit (.bool b)
/-- `None` -/
def NONE : Expr := .lit .none

/-- an element spine from a plain list of expressions -/
def elist (es : List Expr) : Expr := es.foldr .consE .nilE

/-- an argument spine: the positional arguments, then the keyword arguments,
in source order -/
def argsOf (ps : List Expr) (ks : List (String × Expr)) : Expr :=
  ps.foldr .posA (ks.foldr (fun p r => .kwA p.1 p.2 r) .nilE)

/-- build a call from plain lists of positional and keyword arguments -/
def cal (f : Expr) (ps : List Expr) (ks : List (String × Expr)) : Expr :=
  .call f (argsOf ps ks)

/-- `obj.f` for a plain variable `obj` -/
def M (obj f : String) : Expr := .attr (V obj) f

def tupl (es : List Expr) : Expr := .tup (elist es)
def listl (es : List Expr) : Expr := .listE (elist es)
def fstrl (es : List Expr) : Expr := .fstr (elist es)
def dictl (ps : List (Expr × Expr)) : Expr :=
  .dictE (ps.foldr (fun p r => .kvP p.1 p.2 r) .nilE)

/-- a block from a plain list of statements -/
def block (ss : List Stmt) : Stmt := ss.foldr .consS .nilS

/-! ### Syntactic censuses

Each census walks the whole tree, including both branches of conditionals and
the bodies of function definitions, so it counts what the notebook *authors*,
independently of what a particular run executes. -/

/-- number of `try/except` statements authored in a statement (including
nested bodies; expressions of this fragment cannot contain statements). -/
def Stmt.tryCount : Stmt → Nat
  | .ifS _ t e => t.tryCount + e.tryCount
  | .forS _ _ b => b.tryCount
  | .funDef _ _ b => b.tryCount
  | .tryS b h => 1 + b.tryCount + h.tryCount
  | .consS s ss => s.tryCount + ss.tryCount
  | _ => 0

/-- total `try/except` count of a notebook (a list of top-level statements). -/
def tryCount (nb : List Stmt) : Nat := (nb.map Stmt.tryCount).sum

/-- number of `for` statements authored in a statement. -/
def Stmt.forCount : Stmt → Nat
  | .ifS _ t e => t.forCount + e.forCount
  | .forS _ _ b => 1 + b.forCount
  | .funDef _ _ b => b.forCount
  | .tryS b h => b.forCount + h.forCount
  | .consS s ss => s.forCount + ss.forCount
  | _ => 0

/-- total `for`-statement count of a notebook. -/
def forCount (nb : List Stmt) : Nat := (nb.map Stmt.forCount).sum

/-- number of `if` statements authored in a statement. -/
def Stmt.ifCount : Stmt → Nat
  | .ifS _ t e => 1 + t.ifCount + e.ifCount
  | .forS _ _ b => b.ifCount
  | .funDef _ _ b => b.ifCount
  | .tryS b h => b.ifCount + h.ifCount
  | .consS s ss => s.ifCount + ss.ifCount
  | _ => 0

/-- total `if`-statement count of a notebook. -/
def ifCount (nb : List Stmt) : Nat := (nb.map Stmt.ifCount).sum

/-- is `o` an arithmetic operator (`+ - * /`)? -/
def Op.isArith : Op → Bool
  | .add | .sub | .mul | .div => true
  | _ => false

/-- number of arithmetic binary operations (`+ - * /`) authored in an
expression. -/
def Expr.arithCount : Expr → Nat
  | .attr e _ => e.arithCount
  | .call f a => f.arithCount + a.arithCount
  | .binop o l r => (if o.isArith then 1 else 0) + l.arithCount + r.arithCount
  | .condE c t e => c.arithCount + t.arithCount + e.arithCount
  | .tup es => es.arithCount
  | .listE es => es.arithCount
  | .dictE ps => ps.arithCount
  | .item e i => e.arithCount + i.arithCount
  | .star e => e.arithCount
  | .fstr es => es.arithCount
  | .consE e es => e.arithCount + es.arithCount
  | .posA e a => e.arithCount + a.arithCount
  | .kwA _ e a => e.arithCount + a.arithCount
  | .kvP k v r => k.arithCount + v.arithCount + r.arithCount
  | _ => 0

/-- number of arithmetic binary operations authored in a statement. -/
def Stmt.arithCount : Stmt → Nat
  | .assign _ e => e.arithCount
  | .unpack _ e => e.arithCount
  | .attrSet e _ v => e.arithCount + v.arithCount
  | .exprS e => e.arithCount
  | .ifS c t e => c.arithCount + t.arithCount + e.arithCount
  | .forS _ it b => it.arithCount + b.arithCount
  | .funDef _ _ b => b.arithCount
  | .ret e => e.arithCount
  | .tryS b h => b.arithCount + h.arithCount
  | .consS s ss => s.arithCount + ss.arithCount
  | _ => 0

/-- total arithmetic-operation count of a notebook. -/
def arithCount (nb : List Stmt) : Nat := (nb.map Stmt.arithCount).sum

/-- indices of the top-level statements of a notebook that contain an
arithmetic operation. -/
def arithSites (nb : List Stmt) : List Nat :=
  ((nb.enum).filter (fun p => 0 < p.2.arithCount)).map (·.1)

/-- render the callee of a call as a dotted name, as it reads in the source
(`trainer.train`, `os.path.getsize`, …).  Non-name bases are rendered with a
placeholder for the base expression. -/
def Expr.render : Expr → String
  | .name s => s
  | .attr e f => e.render ++ "." ++ f
  | .call e _ => e.render ++ "()"
  | .item e _ => e.render ++ "[]"
  | _ => "?"

/-- the calls issued by an expression, in evaluation order (callee, then the
arguments left to right, then the call itself); calls inside function bodies
are collected at the definition site. -/
def Expr.calls : Expr → List String
  | .attr e _ => e.calls
  | .call f a => f.calls ++ a.calls ++ [f.render]
  | .binop _ l r => l.calls ++ r.calls
  | .condE c t e => c.calls ++ t.calls ++ e.calls
  | .tup es => es.calls
  | .listE es => es.calls
  | .dictE ps => ps.calls
  | .item e i => e.calls ++ i.calls
  | .star e => e.calls
  | .fstr es => es.calls
  | .consE e es => e.calls ++ es.calls
  | .posA e a => e.calls ++ a.calls
  | .kwA _ e a => e.calls ++ a.calls
  | .kvP k v r => k.calls ++ v.calls ++ r.calls
  | _ => []

/-- the calls issued by a statement, in source order. -/
def Stmt.calls : Stmt → List String
  | .assign _ e => e.calls
  | .unpack _ e => e.calls
  | .attrSet e _ v => e.calls ++ v.calls
  | .exprS e => e.calls
  | .ifS c t e => c.calls ++ t.calls ++ e.calls
  | .forS _ it b => it.calls ++ b.calls
  | .funDef _ _ b => b.calls
  | .ret e => e.calls
  | .tryS b h => b.calls ++ h.calls
  | .consS s ss => s.calls ++ ss.calls
  | _ => []

/-- the ordered list of (rendered) callees of every call a notebook authors. -/
def calleeList (nb : List Stmt) : List String := (nb.map Stmt.calls).flatten

/-- every keyword argument authored in an expression, as a pair of the
keyword name and the argument expression. -/
def Expr.kwArgs : Expr → List (String × Expr)
  | .attr e _ => e.kwArgs
  | .call f a => f.kwArgs ++ a.kwArgs
  | .binop _ l r => l.kwArgs ++ r.kwArgs
  | .condE c t e => c.kwArgs ++ t.kwArgs ++ e.kwArgs
  | .tup es => es.kwArgs
  | .listE es => es.kwArgs
  | .dictE ps => ps.kwArgs
  | .item e i => e.kwArgs ++ i.kwArgs
  | .star e => e.kwArgs
  | .fstr es => es.kwArgs
  | .consE e es => e.kwArgs ++ es.kwArgs
  | .posA e a => e.kwArgs ++ a.kwArgs
  | .kwA k e a => (k, e) :: (e.kwArgs ++ a.kwArgs)
  | .kvP k v r => k.kwArgs ++ v.kwArgs ++ r.kwArgs
  | _ => []

/-- every keyword argument authored in a statement. -/
def Stmt.kwArgs : Stmt → List (String × Expr)
  | .assign _ e => e.kwArgs
  | .unpack _ e => e.kwArgs
  | .attrSet e _ v => e.kwArgs ++ v.kwArgs
  | .exprS e => e.kwArgs
  | .ifS c t e => c.kwArgs ++ t.kwArgs ++ e.kwArgs
  | .forS _ it b => it.kwArgs ++ b.kwArgs
  | .funDef _ _ b => b.kwArgs
  | .ret e => e.kwArgs
  | .tryS b h => b.kwArgs ++ h.kwArgs
  | .consS s ss => s.kwArgs ++ ss.kwArgs
  | _ => []

/-- every keyword argument a notebook authors. -/
def kwArgsOf (nb : List Stmt) : List (String × Expr) := (nb.map Stmt.kwArgs).flatten

/-- the modules a notebook imports (top-level `import` / `from … import`). -/
def importsOf (nb : List Stmt) : List String :=
  nb.filterMap fun s => match s with | .imp m => some m | _ => Option.none

/-- the conditions of every conditional expression authored in an
expression. -/
def Expr.conds : Expr → List Expr
  | .attr e _ => e.conds
  | .call f a => f.conds ++ a.conds
  | .binop _ l r => l.conds ++ r.conds
  | .condE c t e => c :: (c.conds ++ t.conds ++ e.conds)
  | .tup es => es.conds
  | .listE es => es.conds
  | .dictE ps => ps.conds
  | .item e i => e.conds ++ i.conds
  | .star e => e.conds
  | .fstr es => es.conds
  | .consE e es => e.conds ++ es.conds
  | .posA e a => e.conds ++ a.conds
  | .kwA _ e a => e.conds ++ a.conds
  | .kvP k v r => k.conds ++ v.conds ++ r.conds
  | _ => []

/-- the conditions of every conditional (`if` statements and conditional
expressions) authored in a statement. -/
def Stmt.conds : Stmt → List Expr
  | .assign _ e => e.conds
  | .unpack _ e => e.conds
  | .attrSet e _ v => e.conds ++ v.conds
  | .exprS e => e.conds
  | .ifS c t e => c :: (c.conds ++ t.conds ++ e.conds)
  | .forS _ it b => it.conds ++ b.conds
  | .funDef _ _ b => b.conds
  | .ret e => e.conds
  | .tryS b h => b.conds ++ h.conds
  | .consS s ss => s.conds ++ ss.conds
  | _ => []

/-- the conditions of every conditional a notebook authors. -/
def condsOf (nb : List Stmt) : List Expr := (nb.map Stmt.conds).flatten

/-- the variable names an expression mentions. -/
def Expr.vars : Expr → List String
  | .name s => [s]
  | .attr e _ => e.vars
  | .call f a => f.vars ++ a.vars
  | .binop _ l r => l.vars ++ r.vars
  | .condE c t e => c.vars ++ t.vars ++ e.vars
  | .tup es => es.vars
  | .listE es => es.vars
  | .dictE ps => ps.vars
  | .item e i => e.vars ++ i.vars
  | .star e => e.vars
  | .fstr es => es.vars
  | .consE e es => e.vars ++ es.vars
  | .posA e a => e.vars ++ a.vars
  | .kwA _ e a => e.vars ++ a.vars
  | .kvP k v r => k.vars ++ v.vars ++ r.vars
  | _ => []

/-! ### The quantization notebook (`src/unnamed/part_000`)

A statement-for-statement transcription of every code cell, in execution
order.  The only cell omitted is the installation cell, whose sole line is the
comment `#! pip install datasets transformers optimum[neural-compressor]`. -/

/-- `src/unnamed/part_000`, all code cells in order. -/
def quantNb : List Stmt := [
  -- from optimum.intel.version import __version__ ; print(__version__)
  .imp "optimum.intel.version",
  .exprS (cal (V "print") [V "__version__"] []),
  -- GLUE_TASKS = [...]; task = "sst2"; model_checkpoint = ...; batch_size = 16;
  -- max_train_samples = 200; max_eval_samples = 200
  .assign "GLUE_TASKS" (listl [S "cola", S "mnli", S "mnli-mm", S "mrpc", S "qnli",
    S "qqp", S "rte", S "sst2", S "stsb", S "wnli"]),
  .assign "task" (S "sst2"),
  .assign "model_checkpoint" (S "distilbert-base-uncased-finetuned-sst-2-english"),
  .assign "batch_size" (I 16),
  .assign "max_train_samples" (I 200),
  .assign "max_eval_samples" (I 200),
  -- import evaluate; from datasets import load_dataset
  .imp "evaluate",
  .imp "datasets",
  -- actual_task = "mnli" if task == "mnli-mm" else task
  .assign "actual_task" (.condE (.binop .eq (V "task") (S "mnli-mm")) (S "mnli") (V "task")),
  -- dataset = load_dataset("glue", actual_task); metric = evaluate.load("glue", actual_task)
  .assign "dataset" (cal (V "load_dataset") [S "glue", V "actual_task"] []),
  .assign "metric" (cal (M "evaluate" "load") [S "glue", V "actual_task"] []),
  -- from transformers.utils import send_example_telemetry; send_example_telemetry(...)
  .imp "transformers.utils",
  .exprS (cal (V "send_example_telemetry")
    [S "text_classification_quantization_inc_notebook"] [("framework", S "none")]),
  -- from transformers import AutoTokenizer; tokenizer = AutoTokenizer.from_pretrained(...)
  .imp "transformers",
  .assign "tokenizer" (cal (M "AutoTokenizer" "from_pretrained") [V "model_checkpoint"] []),
  -- task_to_keys = {...}
  .assign "task_to_keys" (dictl [
    (S "cola", tupl [S "sentence", NONE]),
    (S "mnli", tupl [S "premise", S "hypothesis"]),
    (S "mnli-mm", tupl [S "premise", S "hypothesis"]),
    (S "mrpc", tupl [S "sentence1", S "sentence2"]),
    (S "qnli", tupl [S "question", S "sentence"]),
    (S "qqp", tupl [S "question1", S "question2"]),
    (S "rte", tupl [S "sentence1", S "sentence2"]),
    (S "sst2", tupl [S "sentence", NONE]),
    (S "stsb", tupl [S "sentence1", S "sentence2"]),
    (S "wnli", tupl [S "sentence1", S "sentence2"])]),
  -- sentence1_key, sentence2_key = task_to_keys[task]
  .unpack ["sentence1_key", "sentence2_key"] (.item (V "task_to_keys") (V "task")),
  -- if sentence2_key is None: print(f"Sentence: ...") else: print(...) ; print(...)
  .ifS (.binop .isOp (V "sentence2_key") NONE)
    (block [.exprS (cal (V "print") [fstrl [S "Sentence: ",
      .item (.item (.item (V "dataset") (S "train")) (I 0)) (V "sentence1_key")]] [])])
    (block [
      .exprS (cal (V "print") [fstrl [S "Sentence 1: ",
        .item (.item (.item (V "dataset") (S "train")) (I 0)) (V "sentence1_key")]] []),
      .exprS (cal (V "print") [fstrl [S "Sentence 2: ",
        .item (.item (.item (V "dataset") (S "train")) (I 0)) (V "sentence2_key")]] [])]),
  -- max_seq_length = min(128, tokenizer.model_max_length); padding = "max_length"
  .assign "max_seq_length" (cal (V "min") [I 128, .attr (V "tokenizer") "model_max_length"] []),
  .assign "padding" (S "max_length"),
  -- def preprocess_function(examples): ...
  .funDef "preprocess_function" ["examples"] (block [
    .assign "args" (.condE (.binop .isOp (V "sentence2_key") NONE)
      (tupl [.item (V "examples") (V "sentence1_key")])
      (tupl [.item (V "examples") (V "sentence1_key"),
             .item (V "examples") (V "sentence2_key")])),
    .ret (cal (V "tokenizer") [.star (V "args")]
      [("padding", V "padding"), ("max_length", V "max_seq_length"), ("truncation", B true)])]),
  -- encoded_dataset = dataset.map(preprocess_function, batched=True)
  .assign "encoded_dataset" (cal (.attr (V "dataset") "map")
    [V "preprocess_function"] [("batched", B true)]),
  -- from transformers import AutoModelForSequenceClassification, TrainingArguments,
  --   default_data_collator
  .imp "transformers",
  -- model = AutoModelForSequenceClassification.from_pretrained(model_checkpoint)
  .assign "model" (cal (M "AutoModelForSequenceClassification" "from_pretrained")
    [V "model_checkpoint"] []),
  -- from neural_compressor import QuantizationAwareTrainingConfig
  .imp "neural_compressor",
  .assign "quantization_config" (cal (V "QuantizationAwareTrainingConfig") [] []),
  -- metric_name = "pearson" if task == "stsb" else "matthews_correlation"
  --   if task == "cola" else "accuracy"
  .assign "metric_name" (.condE (.binop .eq (V "task") (S "stsb")) (S "pearson")
    (.condE (.binop .eq (V "task") (S "cola")) (S "matthews_correlation") (S "accuracy"))),
  -- save_directory = f"{model_checkpoint.split('/')[-1]}-finetuned-{task}"
  .assign "save_directory" (fstrl [
    .item (cal (.attr (V "model_checkpoint") "split") [S "/"] []) (I (-1)),
    S "-finetuned-", V "task"]),
  -- args = TrainingArguments(...)
  .assign "args" (cal (V "TrainingArguments") [] [
    ("output_dir", V "save_directory"),
    ("do_train", B true),
    ("do_eval", B false),
    ("eval_strategy", S "epoch"),
    ("save_strategy", S "epoch"),
    ("learning_rate", .lit (.dec 2 100000)),
    ("per_device_train_batch_size", V "batch_size"),
    ("per_device_eval_batch_size", V "batch_size"),
    ("num_train_epochs", I 1),
    ("weight_decay", .lit (.dec 1 100)),
    ("load_best_model_at_end", B true),
    ("metric_for_best_model", V "metric_name")]),
  -- import numpy as np; def compute_metrics(eval_pred): ...
  .imp "numpy",
  .funDef "compute_metrics" ["eval_pred"] (block [
    .unpack ["predictions", "labels"] (V "eval_pred"),
    .ifS (.binop .ne (V "task") (S "stsb"))
      (block [.assign "predictions"
        (cal (M "np" "argmax") [V "predictions"] [("axis", I 1)])])
      (block [.assign "predictions"
        (.item (V "predictions") (tupl [.sliceE Option.none Option.none, I 0]))]),
    .ret (cal (M "metric" "compute") []
      [("predictions", V "predictions"), ("references", V "labels")])]),
  -- import copy; from optimum.intel.neural_compressor import INCTrainer
  .imp "copy",
  .imp "optimum.intel.neural_compressor",
  -- validation_key = "validation_mismatched" if task == "mnli-mm"
  --   else "validation_matched" if task == "mnli" else "validation"
  .assign "validation_key" (.condE (.binop .eq (V "task") (S "mnli-mm"))
    (S "validation_mismatched")
    (.condE (.binop .eq (V "task") (S "mnli")) (S "validation_matched") (S "validation"))),
  -- trainer = INCTrainer(...)
  .assign "trainer" (cal (V "INCTrainer") [] [
    ("model", V "model"),
    ("quantization_config", V "quantization_config"),
    ("task", S "sequence-classification"),
    ("args", V "args"),
    ("train_dataset", cal (.attr (.item (V "encoded_dataset") (S "train")) "select")
      [cal (V "range") [V "max_train_samples"] []] []),
    ("eval_dataset", cal (.attr (.item (V "encoded_dataset") (V "validation_key")) "select")
      [cal (V "range") [V "max_eval_samples"] []] []),
    ("compute_metrics", V "compute_metrics"),
    ("tokenizer", V "tokenizer"),
    ("data_collator", V "default_data_collator")]),
  -- fp_model = copy.deepcopy(model)
  .assign "fp_model" (cal (M "copy" "deepcopy") [V "model"] []),
  -- trainer.train()
  .exprS (cal (M "trainer" "train") [] []),
  -- trainer.evaluate()
  .exprS (cal (M "trainer" "evaluate") [] []),
  -- import os; import torch; def get_model_size(model): ...
  .imp "os",
  .imp "torch",
  .funDef "get_model_size" ["model"] (block [
    .exprS (cal (M "torch" "save") [cal (M "model" "state_dict") [] [], S "tmp.pt"] []),
    .assign "model_size" (.binop .div
      (cal (.attr (M "os" "path") "getsize") [S "tmp.pt"] [])
      (.binop .mul (I 1024) (I 1024))),
    .exprS (cal (M "os" "remove") [S "tmp.pt"] []),
    .ret (cal (V "round") [V "model_size", I 2] [])]),
  -- fp_model_size = get_model_size(fp_model); q_model_size = get_model_size(trainer.model)
  .assign "fp_model_size" (cal (V "get_model_size") [V "fp_model"] []),
  .assign "q_model_size" (cal (V "get_model_size") [M "trainer" "model"] []),
  -- print(f"The full-precision model size is {round(fp_model_size)} MB while ...")
  .exprS (cal (V "print") [fstrl [S "The full-precision model size is ",
    cal (V "round") [V "fp_model_size"] [],
    S " MB while the quantized model one is ",
    cal (V "round") [V "q_model_size"] [], S " MB."]] []),
  -- print(f"The quantized model is {round(fp_model_size / q_model_size, 2)}x smaller ...")
  .exprS (cal (V "print") [fstrl [S "The quantized model is ",
    cal (V "round") [.binop .div (V "fp_model_size") (V "q_model_size"), I 2] [],
    S "x smaller than the full-precision one."]] []),
  -- trainer.save_model(save_onnx_model=True)
  .exprS (cal (M "trainer" "save_model") [] [("save_onnx_model", B true)]),
  -- from optimum.intel.neural_compressor import INCModelForSequenceClassification
  -- from optimum.onnxruntime import ORTModelForSequenceClassification
  .imp "optimum.intel.neural_compressor",
  .imp "optimum.onnxruntime",
  -- pytorch_model = INCModelForSequenceClassification.from_pretrained(save_directory)
  .assign "pytorch_model" (cal (M "INCModelForSequenceClassification" "from_pretrained")
    [V "save_directory"] []),
  -- onnx_model = ORTModelForSequenceClassification.from_pretrained(save_directory)
  .assign "onnx_model" (cal (M "ORTModelForSequenceClassification" "from_pretrained")
    [V "save_directory"] [])]

/-! ### The PatchTST notebook (`src/examples/patch_tst.ipynb`)

Part 1 (cells up to "Save model") trains on the Electricity dataset; Part 2
("Transfer Learning from Electricity to ETTh1") does zero-shot evaluation,
linear probing and full fine-tuning on ETTh1.  The whole notebook is the
concatenation of the two parts. -/

/-- `12 * 30 * 24` as written in the source (multiplication is
left-associative in Python). -/
def monthsExpr (k : Int) : Expr := .binop .mul (.binop .mul (I k) (I 30)) (I 24)

/-- `src/examples/patch_tst.ipynb`, Part 1 (forecasting on Electricity). -/
def ptstPart1 : List Stmt := [
  -- import os
  .imp "os",
  -- from transformers import (EarlyStoppingCallback, PatchTSTConfig,
  --   PatchTSTForPrediction, set_seed, Trainer, TrainingArguments)
  .imp "transformers",
  -- import numpy as np; import pandas as pd
  .imp "numpy",
  .imp "pandas",
  -- from tsfm_public.toolkit.dataset import ForecastDFDataset
  .imp "tsfm_public.toolkit.dataset",
  -- from tsfm_public.toolkit.time_series_preprocessor import TimeSeriesPreprocessor
  .imp "tsfm_public.toolkit.time_series_preprocessor",
  -- from tsfm_public.toolkit.util import select_by_index
  .imp "tsfm_public.toolkit.util",
  -- import warnings; warnings.filterwarnings("ignore", module="torch")
  .imp "warnings",
  .exprS (cal (M "warnings" "filterwarnings") [S "ignore"] [("module", S "torch")]),
  -- set_seed(2023)
  .exprS (cal (V "set_seed") [I 2023] []),
  -- dataset_path = "~/data/ECL.csv"; timestamp_column = "date"; id_columns = []
  .assign "dataset_path" (S "~/data/ECL.csv"),
  .assign "timestamp_column" (S "date"),
  .assign "id_columns" (listl []),
  -- context_length = 512; forecast_horizon = 96; patch_length = 16;
  -- num_workers = 16; batch_size = 64
  .assign "context_length" (I 512),
  .assign "forecast_horizon" (I 96),
  .assign "patch_length" (I 16),
  .assign "num_workers" (I 16),
  .assign "batch_size" (I 64),
  -- data = pd.read_csv(dataset_path, parse_dates=[timestamp_column])
  .assign "data" (cal (M "pd" "read_csv") [V "dataset_path"]
    [("parse_dates", listl [V "timestamp_column"])]),
  -- forecast_columns = list(data.columns[1:])
  .assign "forecast_columns" (cal (V "list")
    [.item (.attr (V "data") "columns") (.sliceE (some 1) Option.none)] []),
  -- num_train = int(len(data) * 0.7); num_test = int(len(data) * 0.2)
  .assign "num_train" (cal (V "int")
    [.binop .mul (cal (V "len") [V "data"] []) (.lit (.dec 7 10))] []),
  .assign "num_test" (cal (V "int")
    [.binop .mul (cal (V "len") [V "data"] []) (.lit (.dec 2 10))] []),
  -- num_valid = len(data) - num_train - num_test
  .assign "num_valid" (.binop .sub
    (.binop .sub (cal (V "len") [V "data"] []) (V "num_train")) (V "num_test")),
  -- border1s = [0, num_train - context_length, len(data) - num_test - context_length]
  .assign "border1s" (listl [I 0,
    .binop .sub (V "num_train") (V "context_length"),
    .binop .sub (.binop .sub (cal (V "len") [V "data"] []) (V "num_test"))
      (V "context_length")]),
  -- border2s = [num_train, num_train + num_valid, len(data)]
  .assign "border2s" (listl [V "num_train",
    .binop .add (V "num_train") (V "num_valid"),
    cal (V "len") [V "data"] []]),
  -- train_start_index = border1s[0]; train_end_index = border2s[0]
  .assign "train_start_index" (.item (V "border1s") (I 0)),
  .assign "train_end_index" (.item (V "border2s") (I 0)),
  -- valid_start_index = border1s[1]; valid_end_index = border2s[1]
  .assign "valid_start_index" (.item (V "border1s") (I 1)),
  .assign "valid_end_index" (.item (V "border2s") (I 1)),
  -- test_start_index = border1s[2]; test_end_index = border2s[2]
  .assign "test_start_index" (.item (V "border1s") (I 2)),
  .assign "test_end_index" (.item (V "border2s") (I 2)),
  -- train_data = select_by_index(data, id_columns=id_columns, start_index=..., end_index=...)
  .assign "train_data" (cal (V "select_by_index") [V "data"] [
    ("id_columns", V "id_columns"),
    ("start_index", V "train_start_index"),
    ("end_index", V "train_end_index")]),
  .assign "valid_data" (cal (V "select_by_index") [V "data"] [
    ("id_columns", V "id_columns"),
    ("start_index", V "valid_start_index"),
    ("end_index", V "valid_end_index")]),
  .assign "test_data" (cal (V "select_by_index") [V "data"] [
    ("id_columns", V "id_columns"),
    ("start_index", V "test_start_index"),
    ("end_index", V "test_end_index")]),
  -- time_series_preprocessor = TimeSeriesPreprocessor(...)
  .assign "time_series_preprocessor" (cal (V "TimeSeriesPreprocessor") [] [
    ("timestamp_column", V "timestamp_column"),
    ("id_columns", V "id_columns"),
    ("input_columns", V "forecast_columns"),
    ("output_columns", V "forecast_columns"),
    ("scaling", B true)]),
  -- time_series_preprocessor = time_series_preprocessor.train(train_data)
  .assign "time_series_preprocessor"
    (cal (M "time_series_preprocessor" "train") [V "train_data"] []),
  -- train_dataset = ForecastDFDataset(time_series_preprocessor.preprocess(train_data), ...)
  .assign "train_dataset" (cal (V "ForecastDFDataset")
    [cal (M "time_series_preprocessor" "preprocess") [V "train_data"] []] [
    ("id_columns", V "id_columns"),
    ("timestamp_column", S "date"),
    ("input_columns", V "forecast_columns"),
    ("output_columns", V "forecast_columns"),
    ("context_length", V "context_length"),
    ("prediction_length", V "forecast_horizon")]),
  .assign "valid_dataset" (cal (V "ForecastDFDataset")
    [cal (M "time_series_preprocessor" "preprocess") [V "valid_data"] []] [
    ("id_columns", V "id_columns"),
    ("timestamp_column", S "date"),
    ("input_columns", V "forecast_columns"),
    ("output_columns", V "forecast_columns"),
    ("context_length", V "context_length"),
    ("prediction_length", V "forecast_horizon")]),
  .assign "test_dataset" (cal (V "ForecastDFDataset")
    [cal (M "time_series_preprocessor" "preprocess") [V "test_data"] []] [
    ("id_columns", V "id_columns"),
    ("timestamp_column", S "date"),
    ("input_columns", V "forecast_columns"),
    ("output_columns", V "forecast_columns"),
    ("context_length", V "context_length"),
    ("prediction_length", V "forecast_horizon")]),
  -- config = PatchTSTConfig(...)
  .assign "config" (cal (V "PatchTSTConfig") [] [
    ("num_input_channels", cal (V "len") [V "forecast_columns"] []),
    ("context_length", V "context_length"),
    ("patch_length", V "patch_length"),
    ("patch_stride", V "patch_length"),
    ("prediction_length", V "forecast_horizon"),
    ("random_mask_ratio", .lit (.dec 4 10)),
    ("d_model", I 128),
    ("num_attention_heads", I 16),
    ("num_hidden_layers", I 3),
    ("ffn_dim", I 256),
    ("dropout", .lit (.dec 2 10)),
    ("head_dropout", .lit (.dec 2 10)),
    ("pooling_type", NONE),
    ("channel_attention", B false),
    ("scaling", S "std"),
    ("loss", S "mse"),
    ("pre_norm", B true),
    ("norm_type", S "batchnorm")]),
  -- model = PatchTSTForPrediction(config)
  .assign "model" (cal (V "PatchTSTForPrediction") [V "config"] []),
  -- training_args = TrainingArguments(...)
  .assign "training_args" (cal (V "TrainingArguments") [] [
    ("output_dir", S "./checkpoint/patchtst/electricity/pretrain/output/"),
    ("overwrite_output_dir", B true),
    ("num_train_epochs", I 100),
    ("do_eval", B true),
    ("eval_strategy", S "epoch"),
    ("per_device_train_batch_size", V "batch_size"),
    ("per_device_eval_batch_size", V "batch_size"),
    ("dataloader_num_workers", V "num_workers"),
    ("save_strategy", S "epoch"),
    ("logging_strategy", S "epoch"),
    ("save_total_limit", I 3),
    ("logging_dir", S "./checkpoint/patchtst/electricity/pretrain/logs/"),
    ("load_best_model_at_end", B true),
    ("metric_for_best_model", S "eval_loss"),
    ("greater_is_better", B false),
    ("label_names", listl [S "future_values"])]),
  -- early_stopping_callback = EarlyStoppingCallback(...)
  .assign "early_stopping_callback" (cal (V "EarlyStoppingCallback") [] [
    ("early_stopping_patience", I 10),
    ("early_stopping_threshold", .lit (.dec 1 10000))]),
  -- trainer = Trainer(model=model, args=training_args, ...)
  .assign "trainer" (cal (V "Trainer") [] [
    ("model", V "model"),
    ("args", V "training_args"),
    ("train_dataset", V "train_dataset"),
    ("eval_dataset", V "valid_dataset"),
    ("callbacks", listl [V "early_stopping_callback"])]),
  -- trainer.train()
  .exprS (cal (M "trainer" "train") [] []),
  -- results = trainer.evaluate(test_dataset); print("Test result:"); print(results)
  .assign "results" (cal (M "trainer" "evaluate") [V "test_dataset"] []),
  .exprS (cal (V "print") [S "Test result:"] []),
  .exprS (cal (V "print") [V "results"] []),
  -- save_dir = "patchtst/electricity/model/pretrain/"
  .assign "save_dir" (S "patchtst/electricity/model/pretrain/"),
  -- os.makedirs(save_dir, exist_ok=True); trainer.save_model(save_dir)
  .exprS (cal (M "os" "makedirs") [V "save_dir"] [("exist_ok", B true)]),
  .exprS (cal (M "trainer" "save_model") [V "save_dir"] [])]

/-- `src/examples/patch_tst.ipynb`, Part 2 (transfer learning to ETTh1). -/
def ptstPart2 : List Stmt := [
  -- dataset = "ETTh1"
  .assign "dataset" (S "ETTh1"),
  -- print(f"Loading target dataset: {dataset}")
  .exprS (cal (V "print") [fstrl [S "Loading target dataset: ", V "dataset"]] []),
  -- dataset_path = f"https://raw.githubusercontent.com/.../ETT-small/{dataset}.csv"
  .assign "dataset_path" (fstrl [
    S "https://raw.githubusercontent.com/zhouhaoyi/ETDataset/main/ETT-small/",
    V "dataset", S ".csv"]),
  .assign "timestamp_column" (S "date"),
  .assign "id_columns" (listl []),
  .assign "forecast_columns" (listl [S "HUFL", S "HULL", S "MUFL", S "MULL",
    S "LUFL", S "LULL", S "OT"]),
  -- train_start_index = None; train_end_index = 12 * 30 * 24
  .assign "train_start_index" NONE,
  .assign "train_end_index" (monthsExpr 12),
  -- valid_start_index = 12 * 30 * 24 - context_length
  .assign "valid_start_index" (.binop .sub (monthsExpr 12) (V "context_length")),
  -- valid_end_index = 12 * 30 * 24 + 4 * 30 * 24
  .assign "valid_end_index" (.binop .add (monthsExpr 12) (monthsExpr 4)),
  -- test_start_index = 12 * 30 * 24 + 4 * 30 * 24 - context_length
  .assign "test_start_index" (.binop .sub (.binop .add (monthsExpr 12) (monthsExpr 4))
    (V "context_length")),
  -- test_end_index = 12 * 30 * 24 + 8 * 30 * 24
  .assign "test_end_index" (.binop .add (monthsExpr 12) (monthsExpr 8)),
  -- data = pd.read_csv(dataset_path, parse_dates=[timestamp_column])
  .assign "data" (cal (M "pd" "read_csv") [V "dataset_path"]
    [("parse_dates", listl [V "timestamp_column"])]),
  .assign "train_data" (cal (V "select_by_index") [V "data"] [
    ("id_columns", V "id_columns"),
    ("start_index", V "train_start_index"),
    ("end_index", V "train_end_index")]),
  .assign "valid_data" (cal (V "select_by_index") [V "data"] [
    ("id_columns", V "id_columns"),
    ("start_index", V "valid_start_index"),
    ("end_index", V "valid_end_index")]),
  .assign "test_data" (cal (V "select_by_index") [V "data"] [
    ("id_columns", V "id_columns"),
    ("start_index", V "test_start_index"),
    ("end_index", V "test_end_index")]),
  .assign "time_series_preprocessor" (cal (V "TimeSeriesPreprocessor") [] [
    ("timestamp_column", V "timestamp_column"),
    ("id_columns", V "id_columns"),
    ("input_columns", V "forecast_columns"),
    ("output_columns", V "forecast_columns"),
    ("scaling", B true)]),
  .assign "time_series_preprocessor"
    (cal (M "time_series_preprocessor" "train") [V "train_data"] []),
  -- the three ForecastDFDataset calls of Part 2 pass no timestamp_column
  .assign "train_dataset" (cal (V "ForecastDFDataset")
    [cal (M "time_series_preprocessor" "preprocess") [V "train_data"] []] [
    ("id_columns", V "id_columns"),
    ("input_columns", V "forecast_columns"),
    ("output_columns", V "forecast_columns"),
    ("context_length", V "context_length"),
    ("prediction_length", V "forecast_horizon")]),
  .assign "valid_dataset" (cal (V "ForecastDFDataset")
    [cal (M "time_series_preprocessor" "preprocess") [V "valid_data"] []] [
    ("id_columns", V "id_columns"),
    ("input_columns", V "forecast_columns"),
    ("output_columns", V "forecast_columns"),
    ("context_length", V "context_length"),
    ("prediction_length", V "forecast_horizon")]),
  .assign "test_dataset" (cal (V "ForecastDFDataset")
    [cal (M "time_series_preprocessor" "preprocess") [V "test_data"] []] [
    ("id_columns", V "id_columns"),
    ("input_columns", V "forecast_columns"),
    ("output_columns", V "forecast_columns"),
    ("context_length", V "context_length"),
    ("prediction_length", V "forecast_horizon")]),
  -- finetune_forecast_model = PatchTSTForPrediction.from_pretrained(...)
  .assign "finetune_forecast_model" (cal (M "PatchTSTForPrediction" "from_pretrained")
    [S "patchtst/electricity/model/pretrain/"] [
    ("num_input_channels", cal (V "len") [V "forecast_columns"] []),
    ("head_dropout", .lit (.dec 7 10))]),
  -- finetune_forecast_args = TrainingArguments(...)
  .assign "finetune_forecast_args" (cal (V "TrainingArguments") [] [
    ("output_dir", S "./checkpoint/patchtst/transfer/finetune/output/"),
    ("overwrite_output_dir", B true),
    ("learning_rate", .lit (.dec 1 10000)),
    ("num_train_epochs", I 100),
    ("do_eval", B true),
    ("eval_strategy", S "epoch"),
    ("per_device_train_batch_size", V "batch_size"),
    ("per_device_eval_batch_size", V "batch_size"),
    ("dataloader_num_workers", V "num_workers"),
    ("report_to", S "tensorboard"),
    ("save_strategy", S "epoch"),
    ("logging_strategy", S "epoch"),
    ("save_total_limit", I 3),
    ("logging_dir", S "./checkpoint/patchtst/transfer/finetune/logs/"),
    ("load_best_model_at_end", B true),
    ("metric_for_best_model", S "eval_loss"),
    ("greater_is_better", B false),
    ("label_names", listl [S "future_values"])]),
  -- early_stopping_callback = EarlyStoppingCallback(...)
  .assign "early_stopping_callback" (cal (V "EarlyStoppingCallback") [] [
    ("early_stopping_patience", I 10),
    ("early_stopping_threshold", .lit (.dec 1 1000))]),
  -- finetune_forecast_trainer = Trainer(...)
  .assign "finetune_forecast_trainer" (cal (V "Trainer") [] [
    ("model", V "finetune_forecast_model"),
    ("args", V "finetune_forecast_args"),
    ("train_dataset", V "train_dataset"),
    ("eval_dataset", V "valid_dataset"),
    ("callbacks", listl [V "early_stopping_callback"])]),
  -- print("\n\nDoing zero-shot forecasting on target data")
  .exprS (cal (V "print") [S "\n\nDoing zero-shot forecasting on target data"] []),
  -- result = finetune_forecast_trainer.evaluate(test_dataset)
  .assign "result" (cal (M "finetune_forecast_trainer" "evaluate") [V "test_dataset"] []),
  .exprS (cal (V "print") [S "Target data zero-shot forecasting result:"] []),
  .exprS (cal (V "print") [V "result"] []),
  -- for param in finetune_forecast_trainer.model.model.parameters():
  --     param.requires_grad = False
  .forS "param" (cal (.attr (.attr (M "finetune_forecast_trainer" "model") "model")
      "parameters") [] [])
    (block [.attrSet (V "param") "requires_grad" (B false)]),
  .exprS (cal (V "print") [S "\n\nLinear probing on the target data"] []),
  -- finetune_forecast_trainer.train()
  .exprS (cal (M "finetune_forecast_trainer" "train") [] []),
  .exprS (cal (V "print") [S "Evaluating"] []),
  .assign "result" (cal (M "finetune_forecast_trainer" "evaluate") [V "test_dataset"] []),
  .exprS (cal (V "print") [S "Target data head/linear probing result:"] []),
  .exprS (cal (V "print") [V "result"] []),
  -- save_dir = f"patchtst/electricity/model/transfer/{dataset}/model/linear_probe/"
  .assign "save_dir" (fstrl [S "patchtst/electricity/model/transfer/",
    V "dataset", S "/model/linear_probe/"]),
  .exprS (cal (M "os" "makedirs") [V "save_dir"] [("exist_ok", B true)]),
  .exprS (cal (M "finetune_forecast_trainer" "save_model") [V "save_dir"] []),
  -- save_dir = f"patchtst/electricity/model/transfer/{dataset}/preprocessor/"
  .assign "save_dir" (fstrl [S "patchtst/electricity/model/transfer/",
    V "dataset", S "/preprocessor/"]),
  .exprS (cal (M "os" "makedirs") [V "save_dir"] [("exist_ok", B true)]),
  .exprS (cal (M "time_series_preprocessor" "save_pretrained") [V "save_dir"] []),
  -- finetune_forecast_model = PatchTSTForPrediction.from_pretrained(..., dropout=0.7, ...)
  .assign "finetune_forecast_model" (cal (M "PatchTSTForPrediction" "from_pretrained")
    [S "patchtst/electricity/model/pretrain/"] [
    ("num_input_channels", cal (V "len") [V "forecast_columns"] []),
    ("dropout", .lit (.dec 7 10)),
    ("head_dropout", .lit (.dec 7 10))]),
  .assign "finetune_forecast_trainer" (cal (V "Trainer") [] [
    ("model", V "finetune_forecast_model"),
    ("args", V "finetune_forecast_args"),
    ("train_dataset", V "train_dataset"),
    ("eval_dataset", V "valid_dataset"),
    ("callbacks", listl [V "early_stopping_callback"])]),
  .exprS (cal (V "print") [S "\n\nFinetuning on the target data"] []),
  .exprS (cal (M "finetune_forecast_trainer" "train") [] []),
  .exprS (cal (V "print") [S "Evaluating"] []),
  .assign "result" (cal (M "finetune_forecast_trainer" "evaluate") [V "test_dataset"] []),
  .exprS (cal (V "print") [S "Target data full finetune result:"] []),
  .exprS (cal (V "print") [V "result"] []),
  -- save_dir = f"patchtst/electricity/model/transfer/{dataset}/model/fine_tuning/"
  .assign "save_dir" (fstrl [S "patchtst/electricity/model/transfer/",
    V "dataset", S "/model/fine_tuning/"]),
  .exprS (cal (M "os" "makedirs") [V "save_dir"] [("exist_ok", B true)]),
  .exprS (cal (M "finetune_forecast_trainer" "save_model") [V "save_dir"] [])]

/-- the whole PatchTST notebook: its cells run top to bottom. -/
def ptstNb : List Stmt := ptstPart1 ++ ptstPart2

/-! ### Pipeline steps

The spec names a six-step pipeline: load dataset → load tokenizer/preprocessor
→ configure model/training arguments → instantiate a trainer → train/evaluate →
save artifacts.  `classify` maps exactly the library calls that realise those
steps in the two notebooks to their step; every other call (metric loading,
telemetry, prints, dataset mapping, size probing, post-save model loading, …)
belongs to no step of the spec's pipeline and is dropped. -/

/-- the steps of the spec's pipeline. -/
inductive Step where
  | loadDataset | loadTokenizer | configure | makeTrainer | train | eval | save
deriving DecidableEq, Repr

/-- which pipeline step (if any) a call realises, by its rendered callee. -/
def classify : String → Option Step
  | "load_dataset" => some .loadDataset
  | "pd.read_csv" => some .loadDataset
  | "AutoTokenizer.from_pretrained" => some .loadTokenizer
  | "TimeSeriesPreprocessor" => some .loadTokenizer
  | "time_series_preprocessor.train" => some .loadTokenizer
  | "AutoModelForSequenceClassification.from_pretrained" => some .configure
  | "QuantizationAwareTrainingConfig" => some .configure
  | "TrainingArguments" => some .configure
  | "PatchTSTConfig" => some .configure
  | "PatchTSTForPrediction" => some .configure
  | "PatchTSTForPrediction.from_pretrained" => some .configure
  | "INCTrainer" => some .makeTrainer
  | "Trainer" => some .makeTrainer
  | "trainer.train" => some .train
  | "finetune_forecast_trainer.train" => some .train
  | "trainer.evaluate" => some .eval
  | "finetune_forecast_trainer.evaluate" => some .eval
  | "trainer.save_model" => some .save
  | "finetune_forecast_trainer.save_model" => some .save
  | "time_series_preprocessor.save_pretrained" => some .save
  | _ => Option.none

/-- collapse consecutive duplicates (a pipeline step realised by several
consecutive calls counts once). -/
def dedup : List Step → List Step
  | [] => []
  | [a] => [a]
  | a :: b :: rest => if a = b then dedup (b :: rest) else a :: dedup (b :: rest)

/-- the pipeline-step sequence a notebook's calls realise, in order. -/
def pipeline (nb : List Stmt) : List Step :=
  dedup ((calleeList nb).filterMap classify)

/-- the spec's canonical pipeline. -/
def canonicalPipeline : List Step :=
  [.loadDataset, .loadTokenizer, .configure, .makeTrainer, .train, .eval, .save]

/-! ### Save operations with resolved directory names

A small constant evaluator for the string expressions the notebooks build
their directory names from: string literals, variables bound to constant
strings, f-strings, and the one `model_checkpoint.split('/')[-1]` idiom.
Walking the top-level statements with the resulting environment yields the
save-related operations each notebook issues, in order, with their directory
strings resolved — i.e. what a run in which every library call succeeds
persists to disk. -/

/-- an environment of variables known to hold constant strings. -/
abbrev SEnv := List (String × String)

/-- split a list of characters at every occurrence of `sep` (so the result
has one group per separator-delimited segment, `[[]]` for the empty list). -/
def splitChars (sep : Char) : List Char → List (List Char)
  | [] => [[]]
  | c :: cs =>
    match splitChars sep cs with
    | [] => if c = sep then [[], []] else [[c]]
    | g :: gs => if c = sep then [] :: g :: gs else (c :: g) :: gs

/-- Python `s.split(sep)` for the single-character separators the notebooks
use (any other separator is left unsplit, which no notebook exercises). -/
def pySplit (s sep : String) : List String :=
  match sep.data with
  | [c] => (splitChars c s.data).map String.mk
  | _ => [s]

/-- evaluate an expression to a constant string when possible (the `nilE` and
`consE` cases evaluate and concatenate the parts of an f-string). -/
def Expr.evalStr (env : SEnv) : Expr → Option String
  | .lit (.str s) => some s
  | .name n => (env.find? (·.1 = n)).map (·.2)
  | .fstr parts => parts.evalStr env
  | .nilE => some ""
  | .consE e es => do pure ((← e.evalStr env) ++ (← es.evalStr env))
  | .item (.call (.attr e "split") (.posA (.lit (.str sep)) .nilE)) (.lit (.int (-1))) =>
    -- `e.split(sep)[-1]`
    (e.evalStr env).map (fun s => (pySplit s sep).getLastD "")
  | _ => Option.none

/-- a save-related operation, with its directory resolved where the source
provides one (`trainer.save_model(save_onnx_model=True)` passes no directory:
the INC trainer saves to its `TrainingArguments.output_dir`). -/
inductive SaveOp where
  /-- `os.makedirs(dir, exist_ok=True)` -/
  | mkdirs : Option String → SaveOp
  /-- `<trainer>.save_model(...)`; the flag records `save_onnx_model=True`. -/
  | saveModel : Option String → Bool → SaveOp
  /-- `<preprocessor>.save_pretrained(dir)` -/
  | savePretrained : Option String → SaveOp
  /-- a `TrainingArguments(output_dir=...)` construction -/
  | trainArgs : Option String → SaveOp
deriving DecidableEq, Repr

/-- does the argument spine contain `save_onnx_model=True`? -/
def Expr.hasOnnxTrue : Expr → Bool
  | .posA _ a => a.hasOnnxTrue
  | .kwA k (.lit (.bool true)) a => k = "save_onnx_model" || a.hasOnnxTrue
  | .kwA _ _ a => a.hasOnnxTrue
  | _ => false

/-- the first positional argument of an argument spine, if any. -/
def Expr.firstPos : Expr → Option Expr
  | .posA e _ => some e
  | .kwA _ _ a => a.firstPos
  | _ => Option.none

/-- look up a keyword argument in an argument spine. -/
def Expr.findKw (k : String) : Expr → Option Expr
  | .posA _ a => a.findKw k
  | .kwA q e a => if q = k then some e else a.findKw k
  | _ => Option.none

/-- the save operation (if any) a top-level right-hand side performs. -/
def saveOpOf (env : SEnv) : Expr → Option SaveOp
  | .call f a =>
    if f.render = "os.makedirs" then
      some (.mkdirs ((a.firstPos).bind (Expr.evalStr env)))
    else if f.render = "TrainingArguments" then
      some (.trainArgs ((a.findKw "output_dir").bind (Expr.evalStr env)))
    else match f with
      | .attr _ "save_model" =>
        some (.saveModel ((a.firstPos).bind (Expr.evalStr env)) a.hasOnnxTrue)
      | .attr _ "save_pretrained" =>
        some (.savePretrained ((a.firstPos).bind (Expr.evalStr env)))
      | _ => Option.none
  | _ => Option.none

/-- walk the top-level statements, tracking constant-string bindings and
collecting the save operations in order. -/
def saveOpsAux : SEnv → List Stmt → List SaveOp
  | _, [] => []
  | env, s :: rest =>
    match s with
    | .assign n e =>
      let ops := (saveOpOf env e).toList
      match e.evalStr env with
      | some v => ops ++ saveOpsAux ((n, v) :: env) rest
      | Option.none => ops ++ saveOpsAux (env.filter (·.1 ≠ n)) rest
    | .exprS e => (saveOpOf env e).toList ++ saveOpsAux env rest
    | _ => saveOpsAux env rest

/-- the save operations a notebook issues, in order. -/
def saveOps (nb : List Stmt) : List SaveOp := saveOpsAux [] nb

/-! ### Sequencing of external calls

The notebooks author no `try`/`except` (a census fact proved below), so their
top-level programs are a plain sequence of external calls: we model a run as
folding an error handler over the ordered call list, where the handler is the
external libraries' behaviour (succeed, or raise an error of an arbitrary
type `E`). -/

/-- run the calls in order: a raised error stops the run and becomes the
program's result, untouched (there is no handler to intercept it). -/
def runCalls {E : Type} (h : String → Except E Unit) : List String → Except E Unit
  | [] => .ok ()
  | c :: cs => do
    _ ← h c
    runCalls h cs

/-! ### The GLUE task tables (quantization notebook, cells 3 and 7) -/

/-- `GLUE_TASKS`, as assigned in the quantization notebook. -/
def GLUE_TASKS : List String :=
  ["cola", "mnli", "mnli-mm", "mrpc", "qnli", "qqp", "rte", "sst2", "stsb", "wnli"]

/-- `task_to_keys`, as assigned in the quantization notebook: each task maps
to its `(sentence1_key, sentence2_key)` column names. -/
def task_to_keys : List (String × (String × Option String)) := [
  ("cola", ("sentence", Option.none)),
  ("mnli", ("premise", some "hypothesis")),
  ("mnli-mm", ("premise", some "hypothesis")),
  ("mrpc", ("sentence1", some "sentence2")),
  ("qnli", ("question", some "sentence")),
  ("qqp", ("question1", some "question2")),
  ("rte", ("sentence1", some "sentence2")),
  ("sst2", ("sentence", Option.none)),
  ("stsb", ("sentence1", some "sentence2")),
  ("wnli", ("sentence1", some "sentence2"))]

/-- render one `task_to_keys` entry back into dictionary-display syntax (to
state that the table above is exactly the one the notebook assigns). -/
def keyPairExpr (p : String × (String × Option String)) : Expr × Expr :=
  (S p.1, tupl [S p.2.1, match p.2.2 with | some k => S k | Option.none => NONE])

/-- the Python lookup `task_to_keys[task]`. -/
def lookupKeys (t : String) : Option (String × Option String) :=
  (task_to_keys.find? (·.1 = t)).map (·.2)

/-! ### Denotational model of the in-repo functions of the quantization
notebook

`preprocess_function` and `compute_metrics` are closures over module-level
variables (`task`, `metric`, `sentence1_key`, `sentence2_key`, `tokenizer`,
`padding`, `max_seq_length`); `NbEnv` packages exactly those module-level
variables, so a function's dependence on the module environment is explicit.
Library objects are represented by what identifies them (the metric loaded
for a task, the tokenizer checkpoint), and a call into a library is
represented by the fully-applied call record the library receives.  Logit
values are abstracted to `Int` (`np.argmax` needs only a linear order). -/

/-- the module-level variables of the quantization notebook that its in-repo
functions read. -/
structure NbEnv where
  task : String
  /-- identifies the loaded `metric` object (`evaluate.load("glue", actual_task)`) -/
  metricId : String
  sentence1_key : String
  sentence2_key : Option String
  /-- identifies the loaded tokenizer (`AutoTokenizer.from_pretrained(...)`) -/
  tokenizerId : String
  padding : String
  max_seq_length : Int
deriving DecidableEq, Repr

/-- the call `metric.compute(predictions=..., references=...)` as the metric
library receives it. -/
structure MetricCall where
  metricId : String
  predictions : List Int
  references : List Int
deriving DecidableEq, Repr

/-- `np.argmax` over one row of logits: the index of the first maximum. -/
def np_argmax (row : List Int) : Nat :=
  (row.enum.foldl (fun best p => if (row.getD best 0) < p.2 then p.1 else best) 0)

/-- `compute_metrics(eval_pred)` from the quantization notebook, with its
captured module environment made explicit.  `eval_pred` is the pair of the
prediction matrix and the label vector. -/
def compute_metrics (env : NbEnv) (eval_pred : List (List Int) × List Int) :
    MetricCall :=
  let predictions := eval_pred.1
  let labels := eval_pred.2
  let predictions :=
    if env.task ≠ "stsb" then
      -- predictions = np.argmax(predictions, axis=1)
      predictions.map (fun r => (np_argmax r : Int))
    else
      -- predictions = predictions[:, 0]
      predictions.map (fun r => r.headD 0)
  { metricId := env.metricId, predictions := predictions, references := labels }

/-- the call the tokenizer receives from `preprocess_function`. -/
structure TokenizerCall where
  tokenizerId : String
  texts : List (List String)
  padding : String
  max_length : Int
  truncation : Bool
deriving DecidableEq, Repr

/-- `preprocess_function(examples)` from the quantization notebook, with its
captured module environment made explicit.  `examples` is a batch: a mapping
from column name to the column's strings. -/
def preprocess_function (env : NbEnv) (examples : List (String × List String)) :
    TokenizerCall :=
  let col := fun k => (((examples.find? (·.1 = k)).map (·.2)).getD [])
  let args :=
    match env.sentence2_key with
    | Option.none => [col env.sentence1_key]
    | some k2 => [col env.sentence1_key, col k2]
  { tokenizerId := env.tokenizerId, texts := args,
    padding := env.padding, max_length := env.max_seq_length, truncation := true }

/-! ### Denotational model of `get_model_size`

The filesystem is a finite map from file name to size in bytes, the serialized
state dict of a model is its byte count, and Python's `round(x, 2)` is
round-half-to-even carried out exactly on `ℚ`. -/

/-- a filesystem: file names with their sizes in bytes. -/
abbrev FileSys := List (String × Int)

/-- `torch.save(..., nm)`: (over)write file `nm` with `sz` bytes. -/
def torchSave (fs : FileSys) (nm : String) (sz : Int) : FileSys :=
  fs.filter (·.1 ≠ nm) ++ [(nm, sz)]

/-- `os.path.getsize(nm)`. -/
def osGetsize (fs : FileSys) (nm : String) : Int :=
  (((fs.find? (·.1 = nm)).map (·.2)).getD 0)

/-- `os.remove(nm)`. -/
def osRemove (fs : FileSys) (nm : String) : FileSys :=
  fs.filter (·.1 ≠ nm)

/-- round half to even to an integer (Python's `round`). -/
def roundHalfEven (q : ℚ) : ℤ :=
  if q - ⌊q⌋ < 1 / 2 then ⌊q⌋
  else if 1 / 2 < q - ⌊q⌋ then ⌊q⌋ + 1
  else if Even ⌊q⌋ then ⌊q⌋ else ⌊q⌋ + 1

/-- Python's `round(x, nd)`. -/
def pyRound (x : ℚ) (nd : Nat) : ℚ := (roundHalfEven (x * 10 ^ nd) : ℚ) / 10 ^ nd

/-- `get_model_size(model)` from the quantization notebook: serialize the
model to `tmp.pt`, read the file size, delete the file, and return the size
in MiB rounded to two decimals.  `stateDictBytes` is the byte count of
`model.state_dict()` as `torch.save` writes it; the result is the returned
value together with the filesystem after the call. -/
def get_model_size (stateDictBytes : Int) (fs : FileSys) : ℚ × FileSys :=
  let fs := torchSave fs "tmp.pt" stateDictBytes
  let model_size : ℚ := (osGetsize fs "tmp.pt" : ℚ) / (1024 * 1024)
  let fs := osRemove fs "tmp.pt"
  (pyRound model_size 2, fs)

/-- `get_model_size` with the (empty) set of module-level variables it reads
made explicit, uniformly with the other two in-repo functions: its body
mentions no module-level variable, so the environment is simply unused. -/
def get_model_size_env (_env : NbEnv) (stateDictBytes : Int) (fs : FileSys) :
    ℚ × FileSys :=
  get_model_size stateDictBytes fs

/-! ### The Electricity split arithmetic (PatchTST notebook, cell 8)

`n` is `len(data)` and `ctx` is `context_length`.  The notebook computes
`num_train = int(len(data) * 0.7)` and `num_test = int(len(data) * 0.2)` with
floating-point multiplication and truncation; those two values enter the
model as the parameters `numTrain` and `numTest`, and every property proved
about the split holds for arbitrary values of them. -/

structure ElectricitySplit where
  num_train : Int
  num_valid : Int
  num_test : Int
  border1s : List Int
  border2s : List Int
  train_start_index : Int
  train_end_index : Int
  valid_start_index : Int
  valid_end_index : Int
  test_start_index : Int
  test_end_index : Int
deriving Repr

/-! ### Remaining extraction helpers -/

/-- the spec's "no control flow beyond straight-line sequencing": a notebook
with no `if` statement and no `for` statement. -/
def straightLine (nb : List Stmt) : Bool :=
  ifCount nb == 0 && forCount nb == 0

/-- the top-level `for` loops of a notebook: loop variable, iterable, body. -/
def loopsOf (nb : List Stmt) : List (String × Expr × Stmt) :=
  nb.filterMap fun s =>
    match s with
    | .forS x it b => some (x, it, b)
    | _ => Option.none

/-- a label for a top-level statement (the name it binds, where it binds one). -/
def stmtLabel : Stmt → String
  | .imp m => "import " ++ m
  | .assign n _ => n
  | .unpack ns _ => String.intercalate ", " ns
  | .attrSet _ f _ => "." ++ f
  | .exprS _ => "<expression>"
  | .ifS _ _ _ => "<if>"
  | .forS x _ _ => "for " ++ x
  | .funDef n _ _ => n
  | .ret _ => "return"
  | .tryS _ _ => "<try>"
  | .nilS => "<empty block>"
  | .consS _ _ => "<block>"

/-- the labels of the top-level statements containing arithmetic. -/
def arithSiteLabels (nb : List Stmt) : List String :=
  (arithSites nb).filterMap (fun i => (nb.get? i).map stmtLabel)

/-- the calls made by the body of the in-repo function named `f`. -/
def funBodyCalls (nb : List Stmt) (f : String) : List String :=
  ((nb.find? fun s => match s with | .funDef n _ _ => n = f | _ => false).map
    (fun s => match s with | .funDef _ _ b => b.calls | _ => [])).getD []

/-- every right-hand side a notebook assigns to the variable `n`. -/
def assignsOf (nb : List Stmt) (n : String) : List Expr :=
  nb.filterMap fun s =>
    match s with
    | .assign n' e => if n' = n then some e else Option.none
    | _ => Option.none

/-- Python concurrency primitives (thread/process/lock/async-task creation):
the library entry points in-repo code would have to call or import to manage
parallelism itself. -/
def concurrencyPrimitives : List String :=
  ["threading.Thread", "threading.Lock", "threading.RLock",
   "multiprocessing.Process", "multiprocessing.Pool",
   "concurrent.futures.ThreadPoolExecutor", "concurrent.futures.ProcessPoolExecutor",
   "asyncio.run", "asyncio.create_task", "asyncio.ensure_future", "os.fork"]

/-- the modules providing those primitives. -/
def concurrencyModules : List String :=
  ["threading", "multiprocessing", "asyncio", "concurrent", "concurrent.futures", "_thread"]

/-- the split cell of Part 1, line by line. -/
def electricitySplit (n ctx numTrain numTest : Int) : ElectricitySplit :=
  let num_train := numTrain
  let num_test := numTest
  let num_valid := n - num_train - num_test
  let border1s : List Int := [0, num_train - ctx, n - num_test - ctx]
  let border2s : List Int := [num_train, num_train + num_valid, n]
  { num_train := num_train, num_valid := num_valid, num_test := num_test,
    border1s := border1s, border2s := border2s,
    train_start_index := border1s.getD 0 0,
    train_end_index := border2s.getD 0 0,
    valid_start_index := border1s.getD 1 0,
    valid_end_index := border2s.getD 1 0,
    test_start_index := border1s.getD 2 0,
    test_end_index := border2s.getD 2 0 }

/-- the module environment the quantization notebook actually builds: the
cells assign `task = "sst2"`, load the `glue`/`sst2` metric, destructure
`task_to_keys["sst2"] = ("sentence", None)`, load the DistilBERT tokenizer,
and set `padding`/`max_seq_length`. -/
def nbEnvSST2 : NbEnv :=
  { task := "sst2", metricId := "glue:sst2",
    sentence1_key := "sentence", sentence2_key := Option.none,
    tokenizerId := "distilbert-base-uncased-finetuned-sst-2-english",
    padding := "max_length", max_seq_length := 128 }

/-- the same module environment with only the variable `task` changed. -/
def nbEnvSTSB : NbEnv := { nbEnvSST2 with task := "stsb" }

/-- a library behaviour in which downloading the GLUE dataset raises and
every other call succeeds. -/
def failLoadDataset : String → Except String Unit := fun c =>
  if c = "load_dataset" then .error "ConnectionError" else .ok ()

/-! ## Theorems -/

/-- if every call before `c` succeeds and `c` raises `e`, running the calls
in order results in exactly `e` (nothing intercepts it). -/
theorem runCalls_propagates {E : Type} (h : String → Except E Unit) (e : E)
    (pre : List String) (c : String) (post : List String)
    (hpre : ∀ x ∈ pre, h x = .ok ()) (hc : h c = .error e) :
    runCalls h (pre ++ c :: post) = .error e := by
  induction pre with
  | nil => simp [runCalls, hc, Bind.bind, Except.bind]
  | cons a as ih =>
    have ha : h a = .ok () := hpre a (by simp)
    simp only [List.cons_append, runCalls, ha, Bind.bind, Except.bind]
    exact ih (fun x hx => hpre x (by simp [hx]))

/-- **C1** — counterexample.  As stated ("no step of this sequence is
skipped, repeated out of order, or reordered in either notebook's top-level
program") the claim is false: the PatchTST notebook's full top-level
pipeline-step trace is not the canonical seven-step sequence, because Part 2
loads a dataset again after Part 1 already saved, evaluates (zero-shot)
before it trains, and repeats trainer creation, train, evaluate and save for
linear probing and fine-tuning. -/
theorem C1_counterexample :
    ¬ (pipeline quantNb = canonicalPipeline ∧ pipeline ptstNb = canonicalPipeline) :=
  fun h => absurd h.2 (by decide)

/-- **C1** — amended.  The quantization notebook's top-level program realises
the canonical pipeline (load dataset → load tokenizer/preprocessor →
configure → instantiate trainer → train → evaluate → save) exactly once, in
order, with no step skipped or repeated, and so does Part 1 of the PatchTST
notebook; the full PatchTST notebook realises the canonical pipeline (Part 1)
and then, for transfer learning, loads the target dataset and preprocessor
again, configures and instantiates a new trainer, evaluates zero-shot
*before* training, trains and evaluates for linear probing, saves, and ends
with a second configure/trainer/train/evaluate/save round for fine-tuning. -/
theorem C1_pipeline :
    pipeline quantNb = canonicalPipeline ∧
    pipeline ptstPart1 = canonicalPipeline ∧
    pipeline ptstNb = canonicalPipeline ++
      [.loadDataset, .loadTokenizer, .configure, .makeTrainer, .eval,
       .train, .eval, .save, .configure, .makeTrainer, .train, .eval, .save] :=
  ⟨rfl, rfl, rfl⟩

/-- **C2** — counterexample.  The PatchTST notebook's top-level program is
not a branch-free, loop-free sequence: it authors a `for` statement (the
backbone-freeze loop), whose body `param.requires_grad = False` executes once
per parameter of the loaded model. -/
theorem C2_counterexample : straightLine ptstNb = false := by decide

/-- **C2** — amended.  The quantization notebook authors no loop and exactly
two `if` statements, and every condition it authors (2 statement conditions
and 6 conditional expressions) mentions only the module constants `task` and
`sentence2_key`, so for a fixed configuration each conditional resolves to a
fixed branch and the notebook runs a fixed statement sequence; the PatchTST
notebook authors no conditional at all and exactly one loop, the
backbone-freeze `for` over `finetune_forecast_trainer.model.model.parameters()`
whose in-repo body executes once per model parameter. -/
theorem C2_control_flow :
    forCount quantNb = 0 ∧ ifCount quantNb = 2 ∧
    ifCount ptstNb = 0 ∧ forCount ptstNb = 1 ∧
    loopsOf quantNb = [] ∧
    loopsOf ptstNb = [("param",
      cal (.attr (.attr (M "finetune_forecast_trainer" "model") "model") "parameters") [] [],
      block [.attrSet (V "param") "requires_grad" (B false)])] ∧
    condsOf ptstNb = [] ∧
    (condsOf quantNb).length = 8 ∧
    ((condsOf quantNb).all
      (fun c => c.vars.all (fun v => v == "task" || v == "sentence2_key"))) = true :=
  ⟨rfl, rfl, rfl, rfl, rfl, rfl, rfl, rfl, rfl⟩

/-- **C3** — counterexample.  As stated ("no original algorithm or in-repo
computation transforms data on the way into or out of any library call") the
claim is false: both notebooks author arithmetic that transforms values
between library calls — `get_model_size` divides the byte count returned by
`os.path.getsize` by `1024*1024` before passing it to `round`, and the
PatchTST notebook computes its split borders from `len(data)`. -/
theorem C3_counterexample :
    ¬ (arithCount quantNb = 0 ∧ arithCount ptstNb = 0) := by decide

/-- **C3** — amended.  Every operation is performed through external library
calls, but the notebooks author small glue computations around some of them:
the only top-level statements containing arithmetic are `get_model_size` and
the size-ratio print in the quantization notebook, and the ten split-border
assignments in the PatchTST notebook; in addition `compute_metrics`
preprocesses the predictions with `np.argmax` before handing them to
`metric.compute` (on the notebook's SST-2 configuration `[[0, 1]]` becomes
the argmax list `[1]`), and `get_model_size` composes
`torch.save`/`os.path.getsize`/`os.remove`/`round`. -/
theorem C3_library_calls_plus_glue :
    arithCount quantNb = 3 ∧ arithCount ptstNb = 29 ∧
    arithSiteLabels quantNb = ["get_model_size", "<expression>"] ∧
    arithSiteLabels ptstNb = ["num_train", "num_test", "num_valid", "border1s",
      "border2s", "train_end_index", "valid_start_index", "valid_end_index",
      "test_start_index", "test_end_index"] ∧
    funBodyCalls quantNb "compute_metrics" = ["np.argmax", "metric.compute"] ∧
    funBodyCalls quantNb "get_model_size" =
      ["model.state_dict", "torch.save", "os.path.getsize", "os.remove", "round"] ∧
    (compute_metrics nbEnvSST2 ([[0, 1]], [1])).predictions = [1] :=
  ⟨rfl, rfl, rfl, rfl, rfl, rfl, by decide⟩

/-- **C4** — the notebooks author no error handling: neither contains a
`try`/`except` (census over the whole tree, function bodies included), and
consequently a run is the plain sequencing of its external calls, so whenever
the library behaviour `h` raises `e` at any call of either notebook's call
list (all earlier calls having succeeded), the whole program results in
exactly that error, unchanged. -/
theorem C4_error_propagation :
    tryCount quantNb = 0 ∧ tryCount ptstNb = 0 ∧
    (∀ (E : Type) (h : String → Except E Unit) (e : E)
        (pre : List String) (c : String) (post : List String),
      calleeList quantNb = pre ++ c :: post →
      (∀ x ∈ pre, h x = .ok ()) → h c = .error e →
      runCalls h (calleeList quantNb) = .error e) ∧
    (∀ (E : Type) (h : String → Except E Unit) (e : E)
        (pre : List String) (c : String) (post : List String),
      calleeList ptstNb = pre ++ c :: post →
      (∀ x ∈ pre, h x = .ok ()) → h c = .error e →
      runCalls h (calleeList ptstNb) = .error e) := by
  refine ⟨rfl, rfl, ?_, ?_⟩ <;>
  · intro E h e pre c post heq hpre hc
    rw [heq]
    exact runCalls_propagates h e pre c post hpre hc

/-- **C4** — witness: a `ConnectionError` raised by `load_dataset` (the
second call the quantization notebook makes) surfaces as the run's result,
unchanged. -/
theorem C4_witness :
    runCalls failLoadDataset (calleeList quantNb) = .error "ConnectionError" := by
  refine C4_error_propagation.2.2.1 String failLoadDataset "ConnectionError"
    ["print"] "load_dataset" ((calleeList quantNb).drop 2) rfl ?_ rfl
  intro x hx
  simp only [List.mem_singleton] at hx
  subst hx
  rfl

/-- **C5** — the notebooks issue no concurrency primitive of their own: no
call targets a thread/process/lock/async entry point, no concurrency module
is imported, and parallelism is delegated purely by passing parameters —
`batched=True` to `dataset.map` in the quantization notebook, and the
numeric `num_workers = 16` constant passed as `dataloader_num_workers` to
both `TrainingArguments` constructions of the PatchTST notebook. -/
theorem C5_no_concurrency :
    ((calleeList quantNb ++ calleeList ptstNb).all
      (fun c => !(concurrencyPrimitives.contains c))) = true ∧
    ((importsOf quantNb ++ importsOf ptstNb).all
      (fun m => !(concurrencyModules.contains m))) = true ∧
    (kwArgsOf quantNb).find? (·.1 = "batched") = some ("batched", B true) ∧
    assignsOf ptstNb "num_workers" = [I 16] ∧
    (kwArgsOf ptstNb).filter (·.1 = "dataloader_num_workers") =
      [("dataloader_num_workers", V "num_workers"),
       ("dataloader_num_workers", V "num_workers")] :=
  ⟨rfl, rfl, rfl, rfl, rfl⟩

/-- **C6** — the save operations of a successful run, with directories
resolved.  The quantization notebook constructs its `TrainingArguments` with
`output_dir` = the value of `save_directory`
(`"distilbert-base-uncased-finetuned-sst-2-english-finetuned-sst2"`) and
calls `trainer.save_model(save_onnx_model=True)` — the INC trainer saves to
its configured `output_dir`, additionally exporting ONNX; the PatchTST
notebook creates (`os.makedirs`) and saves models into its `pretrain`,
`linear_probe` and `fine_tuning` directories (plus the preprocessor
directory), in that order. -/
theorem C6_saved_artifacts :
    saveOps quantNb =
      [.trainArgs (some "distilbert-base-uncased-finetuned-sst-2-english-finetuned-sst2"),
       .saveModel Option.none true] ∧
    saveOps ptstNb =
      [.trainArgs (some "./checkpoint/patchtst/electricity/pretrain/output/"),
       .mkdirs (some "patchtst/electricity/model/pretrain/"),
       .saveModel (some "patchtst/electricity/model/pretrain/") false,
       .trainArgs (some "./checkpoint/patchtst/transfer/finetune/output/"),
       .mkdirs (some "patchtst/electricity/model/transfer/ETTh1/model/linear_probe/"),
       .saveModel (some "patchtst/electricity/model/transfer/ETTh1/model/linear_probe/") false,
       .mkdirs (some "patchtst/electricity/model/transfer/ETTh1/preprocessor/"),
       .savePretrained (some "patchtst/electricity/model/transfer/ETTh1/preprocessor/"),
       .mkdirs (some "patchtst/electricity/model/transfer/ETTh1/model/fine_tuning/"),
       .saveModel (some "patchtst/electricity/model/transfer/ETTh1/model/fine_tuning/") false] :=
  ⟨rfl, rfl⟩

/-- **C7** — counterexample.  `compute_metrics` does not return the same
result in every module-level environment: changing only the module variable
`task` from `"sst2"` to `"stsb"` changes the predictions passed to the metric
on the same argument (`np.argmax` row-wise versus first-column selection). -/
theorem C7_counterexample :
    ¬ (∀ (env env' : NbEnv) (x : List (List Int) × List Int),
        compute_metrics env x = compute_metrics env' x) :=
  fun h => absurd (h nbEnvSST2 nbEnvSTSB ([[0, 1]], [1])) (by decide)

/-- **C7** — amended.  Each in-repo function depends only on its explicit
arguments and the module-level variables it reads: `compute_metrics` on
`task` and `metric`, `preprocess_function` on `sentence1_key`,
`sentence2_key`, `tokenizer`, `padding` and `max_seq_length`, and
`get_model_size` on no module-level variable at all — two module environments
agreeing on a function's read set give the same result on every argument. -/
theorem C7_read_sets :
    (∀ env env' : NbEnv, env.task = env'.task → env.metricId = env'.metricId →
      ∀ x, compute_metrics env x = compute_metrics env' x) ∧
    (∀ env env' : NbEnv, env.sentence1_key = env'.sentence1_key →
      env.sentence2_key = env'.sentence2_key → env.tokenizerId = env'.tokenizerId →
      env.padding = env'.padding → env.max_seq_length = env'.max_seq_length →
      ∀ x, preprocess_function env x = preprocess_function env' x) ∧
    (∀ (env env' : NbEnv) (b : Int) (fs : FileSys),
      get_model_size_env env b fs = get_model_size_env env' b fs) := by
  refine ⟨?_, ?_, fun _ _ _ _ => rfl⟩
  · intro env env' ht hm x
    simp [compute_metrics, ht, hm]
  · intro env env' h1 h2 h3 h4 h5 x
    simp [preprocess_function, h1, h2, h3, h4, h5]

/-- **C7** — witness: two environments differing only outside the read set of
`compute_metrics` (here in `sentence1_key`) yield equal results. -/
theorem C7_witness :
    compute_metrics nbEnvSST2 ([[0, 1]], [1]) =
      compute_metrics { nbEnvSST2 with sentence1_key := "other" } ([[0, 1]], [1]) :=
  C7_read_sets.1 nbEnvSST2 { nbEnvSST2 with sentence1_key := "other" } rfl rfl
    ([[0, 1]], [1])

/-- **C8** — the tables of the quantization notebook are as transcribed, and
every task string of `GLUE_TASKS` is a key of `task_to_keys`, so the lookup
`task_to_keys[task]` succeeds for any task chosen from `GLUE_TASKS`. -/
theorem C8_task_keys_total :
    assignsOf quantNb "GLUE_TASKS" = [listl (GLUE_TASKS.map S)] ∧
    assignsOf quantNb "task_to_keys" = [dictl (task_to_keys.map keyPairExpr)] ∧
    ∀ t ∈ GLUE_TASKS, (lookupKeys t).isSome :=
  ⟨rfl, rfl, by decide⟩

/-- **C8** — witness: the notebook's own configuration `task = "sst2"` looks
up successfully. -/
theorem C8_witness : (lookupKeys "sst2").isSome :=
  C8_task_keys_total.2.2 "sst2" (by decide)

/-- **C9** — the Electricity split arithmetic of the PatchTST notebook: the
three split sizes partition the dataframe, training covers `[0, num_train)`,
the test window ends at `len(data)`, and both evaluation windows start
exactly `context_length` rows before the end of the preceding split (the
validation window before the end of training, the test window before the end
of validation), for any dataframe length, context length and truncated
`num_train`/`num_test` values. -/
theorem C9_split_arithmetic (n ctx numTrain numTest : Int) :
    (electricitySplit n ctx numTrain numTest).num_train = numTrain ∧
    (electricitySplit n ctx numTrain numTest).num_test = numTest ∧
    (electricitySplit n ctx numTrain numTest).num_train +
      (electricitySplit n ctx numTrain numTest).num_valid +
      (electricitySplit n ctx numTrain numTest).num_test = n ∧
    (electricitySplit n ctx numTrain numTest).train_start_index = 0 ∧
    (electricitySplit n ctx numTrain numTest).train_end_index =
      (electricitySplit n ctx numTrain numTest).num_train ∧
    (electricitySplit n ctx numTrain numTest).test_end_index = n ∧
    (electricitySplit n ctx numTrain numTest).valid_start_index =
      (electricitySplit n ctx numTrain numTest).num_train - ctx ∧
    (electricitySplit n ctx numTrain numTest).valid_start_index =
      (electricitySplit n ctx numTrain numTest).train_end_index - ctx ∧
    (electricitySplit n ctx numTrain numTest).valid_end_index =
      (electricitySplit n ctx numTrain numTest).train_end_index +
      (electricitySplit n ctx numTrain numTest).num_valid ∧
    (electricitySplit n ctx numTrain numTest).test_start_index =
      n - (electricitySplit n ctx numTrain numTest).num_test - ctx ∧
    (electricitySplit n ctx numTrain numTest).test_start_index =
      (electricitySplit n ctx numTrain numTest).valid_end_index - ctx := by
  refine ⟨rfl, rfl, ?_, rfl, rfl, rfl, rfl, rfl, rfl, rfl, ?_⟩
  · show numTrain + (n - numTrain - numTest) + numTest = n
    omega
  · show n - numTest - ctx = numTrain + (n - numTrain - numTest) - ctx
    omega

/-- **C9** — witness at an ETTh1-sized dataframe (8640 rows, context 512,
truncations 6048 and 1728): the split sizes partition the dataframe. -/
theorem C9_witness :
    (electricitySplit 8640 512 6048 1728).num_train +
      (electricitySplit 8640 512 6048 1728).num_valid +
      (electricitySplit 8640 512 6048 1728).num_test = 8640 :=
  (C9_split_arithmetic 8640 512 6048 1728).2.2.1

/-- **C10** — counterexample.  As stated ("leaves the filesystem unchanged")
the claim is false when a file named `tmp.pt` already exists: `get_model_size`
overwrites and then removes it, so the resulting filesystem is not the
initial one. -/
theorem C10_counterexample :
    (get_model_size 42 [("tmp.pt", 5)]).2 ≠ [("tmp.pt", 5)] := by decide

/-- **C10** — amended.  Provided no file named `tmp.pt` already exists,
`get_model_size` returns the serialized byte count divided by `1024*1024`
rounded (half to even) to two decimal places, and leaves the filesystem
exactly as it found it: the `tmp.pt` it writes is removed before returning. -/
theorem find_first_in_appended (fs : FileSys) (nm : String) (sz : Int)
    (h : ∀ p ∈ fs, p.1 ≠ nm) :
    (fs ++ [(nm, sz)]).find? (fun p => p.1 = nm) = some (nm, sz) := by
  induction fs with
  | nil => simp
  | cons a as ih =>
    have ha : ¬ (a.1 = nm) := h a (by simp)
    rw [List.cons_append, List.find?_cons_of_neg _ (by simpa using ha)]
    exact ih (fun x hx => h x (by simp [hx]))

theorem C10_size_and_frame (bytes : Int) (fs : FileSys)
    (h : ∀ p ∈ fs, p.1 ≠ "tmp.pt") :
    get_model_size bytes fs = (pyRound ((bytes : ℚ) / (1024 * 1024)) 2, fs) := by
  have hfilter : fs.filter (fun p => p.1 ≠ "tmp.pt") = fs := by
    rw [List.filter_eq_self]
    intro a ha
    simpa using h a ha
  have hsave : torchSave fs "tmp.pt" bytes = fs ++ [("tmp.pt", bytes)] := by
    unfold torchSave
    rw [hfilter]
  have hgs : osGetsize (fs ++ [("tmp.pt", bytes)]) "tmp.pt" = bytes := by
    unfold osGetsize
    rw [find_first_in_appended fs "tmp.pt" bytes h]
    rfl
  have hrm : osRemove (fs ++ [("tmp.pt", bytes)]) "tmp.pt" = fs := by
    unfold osRemove
    rw [List.filter_append, hfilter]
    simp
  show (pyRound ((osGetsize (torchSave fs "tmp.pt" bytes) "tmp.pt" : ℚ) / (1024 * 1024)) 2,
      osRemove (torchSave fs "tmp.pt" bytes) "tmp.pt") =
    (pyRound ((bytes : ℚ) / (1024 * 1024)) 2, fs)
  rw [hsave, hgs, hrm]

/-- **C10** — witness: a 2 MiB state dict on a filesystem holding one other
file gives exactly 2.0 MiB and the untouched filesystem. -/
theorem C10_witness :
    get_model_size 2097152 [("weights.bin", 7)] = (2, [("weights.bin", 7)]) := by
  rw [C10_size_and_frame 2097152 [("weights.bin", 7)] (by decide)]
  have h2 : (((2097152 : ℤ) : ℚ) / (1024 * 1024)) = 2 := by norm_num
  rw [h2]
  have hr : roundHalfEven (2 * 10 ^ 2) = 200 := by
    unfold roundHalfEven
    norm_num
  unfold pyRound
  rw [hr]
  norm_num

end Notebooks
